import Mathlib

/-!
Verification of `pupil_src/shared_modules/service_ui.py` (Service_UI plugin).

The plugin is modelled as a state machine over `UIState` (the mutable
attributes of the `Service_UI` instance together with the pieces of shared
`g_pool` state it owns: the gui user scale, the gui effective scale, the
opaque ui configuration blob, and the glfw window-should-close flag).
Host-provided read-only inputs (monitor content scale, framebuffer scale,
clipboard contents, platform name, window geometry queries) are collected in
an `Env` record.  Every observable side effect performed through glfw, the
gl utilities, the pyglui widget system or the notification bus is recorded as
an `Effect` in an ordered trace, so that emission order and multiplicity of
notifications can be proved.  Machine floats of the source are modelled as
exact rationals; Python `int(x)` (truncation toward zero) is `pythonInt`.
-/

/-- A notification dictionary as passed to `notify_all`.  Only the keys that
appear in `service_ui.py` are modelled; a key that a given notification does
not carry is `none`. -/
structure Notification where
  subject : String
  eye_id : Option Nat := none
  delay : Option ℚ := none
  initial_delay : Option ℚ := none
  deriving DecidableEq, Repr

/-- One observable side effect of the plugin: a call into glfw, the gl
utilities, the pyglui widget system, the logger, or the notification bus. -/
inductive Effect where
  | log (msg : String)
  | setWindowShouldClose (flag : Bool)
  | setWindowSize (w h : ℤ)
  | notify (n : Notification)
  | viewport (x y w h : ℤ)
  | pollEvents
  | makeCoordNorm
  | drawTexture
  | makeCoordPixel (h w d : ℤ)
  | guiUpdateWindow (w h : ℤ)
  | guiCollectMenus
  | guiUpdateClipboard (s : String)
  | guiUpdate
  | setClipboard (s : String)
  | swapBuffers
  deriving DecidableEq, Repr

/-- Mutable state of the `Service_UI` instance: `self.window_size`,
`self.content_scale`, `g_pool.gui_user_scale`, `g_pool.gui.scale`,
`g_pool.gui.configuration`, and the glfw window-should-close flag of
`g_pool.main_window`. -/
structure UIState where
  window_size : ℤ × ℤ
  content_scale : ℚ
  gui_user_scale : ℚ
  gui_scale : ℚ
  ui_config : String
  shouldClose : Bool
  deriving DecidableEq, Repr

/-- Host-supplied inputs read during a callback: glfw queries and the result
of the widget-system update.  `clipboard` is the return value of
`glfwGetClipboardString` (`none` models Python `None`); `user_clipboard` is
`user_input.clipboard` from `g_pool.gui.update()` (`""` models a falsy
value); `platform` is `platform.system()`. -/
structure Env where
  content_scale : ℚ
  framebuffer_scale : ℚ
  clipboard : Option String
  user_clipboard : String
  platform : String
  window_position : ℤ × ℤ
  session_window_size : ℤ × ℤ
  deriving DecidableEq, Repr

/-- Python `int(x)`: truncation toward zero. -/
def pythonInt (q : ℚ) : ℤ := if q < 0 then ⌈q⌉ else ⌊q⌋

/-- `window_size_default = (400, 400)` from line 34 of the source. -/
def window_size_default : ℚ × ℚ := (400, 400)

/-- `gl_display`: normalized coordinate system, draw the placeholder
texture, pixel-based coordinate system sized `(h, w, 3)`. -/
def gl_display (st : UIState) : List Effect :=
  [Effect.makeCoordNorm, Effect.drawTexture,
   Effect.makeCoordPixel st.window_size.2 st.window_size.1 3]

/-- The `service_process.should_stop` notification emitted by `update_ui`
once the window should close. -/
def notifServiceStop : Notification := { subject := "service_process.should_stop" }

/-- `update_ui`: if the window should not close, set the viewport, poll
events, run `gl_display`, read the clipboard (substituting `""` when glfw
returns `None`), hand it to the widget system, run the widget update, write
the clipboard back only if the widget produced a truthy value that differs
from what was read, and swap buffers.  Otherwise emit
`service_process.should_stop`.  The method mutates no instance state. -/
def update_ui (st : UIState) (env : Env) : UIState × List Effect :=
  if st.shouldClose then
    (st, [Effect.notify notifServiceStop])
  else
    let clipboard := env.clipboard.getD ""
    let writeback :=
      if env.user_clipboard ≠ "" ∧ env.user_clipboard ≠ clipboard then
        [Effect.setClipboard env.user_clipboard]
      else []
    (st,
      [Effect.viewport 0 0 st.window_size.1 st.window_size.2, Effect.pollEvents]
      ++ gl_display st
      ++ [Effect.guiUpdateClipboard clipboard, Effect.guiUpdate]
      ++ writeback
      ++ [Effect.swapBuffers])

/-- `on_resize(window, w, h)`: store the size, refresh the cached content
scale from the window, set the widget-system scale to
`gui_user_scale * content_scale`, propagate the size, collect menus, and run
one immediate `update_ui`. -/
def on_resize (st : UIState) (env : Env) (w h : ℤ) : UIState × List Effect :=
  let st1 : UIState :=
    { st with
      window_size := (w, h)
      content_scale := env.content_scale
      gui_scale := st.gui_user_scale * env.content_scale }
  let upd := update_ui st1 env
  (upd.1, [Effect.guiUpdateWindow w h, Effect.guiCollectMenus] ++ upd.2)

/-- `set_scale(new_scale)`: store the new user scale first; if it equals the
old one, return without side effects; otherwise run `on_resize` at the
current window size. -/
def set_scale (st : UIState) (env : Env) (new_scale : ℚ) : UIState × List Effect :=
  let old_scale := st.gui_user_scale
  let st1 : UIState := { st with gui_user_scale := new_scale }
  if old_scale = new_scale then (st1, [])
  else on_resize st1 env st1.window_size.1 st1.window_size.2

/-- `set_window_size()`: scale the default 400 by
`content_scale / framebuffer_scale` and resize the window to the
`int`-truncated result. -/
def set_window_size (env : Env) : List Effect :=
  let f_width := window_size_default.1
  let f_height := window_size_default.2
  let display_scale_factor := env.content_scale / env.framebuffer_scale
  let f_width := f_width * display_scale_factor
  let f_height := f_height * display_scale_factor
  [Effect.setWindowSize (pythonInt f_width) (pythonInt f_height)]

/-- The `clear_settings_process.should_start` notification. -/
def notifClearSettings : Notification := { subject := "clear_settings_process.should_start" }

/-- The delayed `service_process.should_start` notification; the source
writes the delay as the float literal `2.0`, the exact rational 2. -/
def notifServiceStart : Notification :=
  { subject := "service_process.should_start", delay := some 2 }

/-- `reset_restart()`: log a warning, mark the window as closing, then emit
the clear-settings request followed by the delayed service-start request. -/
def reset_restart (st : UIState) : UIState × List Effect :=
  ({ st with shouldClose := true },
   [Effect.log "Resetting all settings and restarting Capture.",
    Effect.setWindowShouldClose true,
    Effect.notify notifClearSettings,
    Effect.notify notifServiceStart])

/-- `on_notify(notification)`: on subject `service_process.ui.should_update`
set the delay key to the initial_delay key (a missing initial_delay key
raises `KeyError`, modelled as `none`), re-emit the notification, then run
`update_ui`; any other subject does nothing. -/
def on_notify (st : UIState) (env : Env) (n : Notification) :
    Option (List Effect) :=
  if n.subject = "service_process.ui.should_update" then
    match n.initial_delay with
    | some d =>
        some (Effect.notify { n with delay := some d } :: (update_ui st env).2)
    | none => none
  else some []

/-- `start_stop_eye(eye_id, make_alive)`: emit the start notification, or
the stop notification carrying a 0.2 delay (the exact rational 1/5). -/
def start_stop_eye (eye_id : Nat) (make_alive : Bool) : List Effect :=
  if make_alive then
    [Effect.notify
      { subject := "eye_process.should_start." ++ toString eye_id,
        eye_id := some eye_id }]
  else
    [Effect.notify
      { subject := "eye_process.should_stop." ++ toString eye_id,
        eye_id := some eye_id, delay := some (1/5) }]

/-- Trace of toggling eye `eye_id` on and then off: the two `start_stop_eye`
calls performed in sequence. -/
def toggle_eye_on_off (eye_id : Nat) : List Effect :=
  start_stop_eye eye_id true ++ start_stop_eye eye_id false

/-- The configuration snapshot returned by `get_init_dict`. -/
structure InitDict where
  window_position : ℤ × ℤ
  gui_scale : ℚ
  ui_config : String
  window_size : Option (ℤ × ℤ)
  deriving DecidableEq, Repr

/-- `get_init_dict()`: always return window position, gui scale and the
opaque ui configuration; add `window_size` only when neither queried
dimension is 0, dividing by the content scale on Windows and Linux before
`int`-truncation. -/
def get_init_dict (st : UIState) (env : Env) : InitDict :=
  let sws := env.session_window_size
  let ws : Option (ℤ × ℤ) :=
    if sws.1 = 0 ∨ sws.2 = 0 then none
    else
      let f_width : ℚ := (sws.1 : ℚ)
      let f_height : ℚ := (sws.2 : ℚ)
      let dims : ℚ × ℚ :=
        if env.platform = "Windows" ∨ env.platform = "Linux" then
          (f_width / env.content_scale, f_height / env.content_scale)
        else (f_width, f_height)
      some (pythonInt dims.1, pythonInt dims.2)
  { window_position := env.window_position
    gui_scale := st.gui_user_scale
    ui_config := st.ui_config
    window_size := ws }

/-- Iterated render passes: run `update_ui` once per supplied environment,
threading the state, and collect each call's effect trace. -/
def update_ui_iter (st : UIState) : List Env → UIState × List (List Effect)
  | [] => (st, [])
  | e :: es =>
    let upd := update_ui st e
    let rest := update_ui_iter upd.1 es
    (rest.1, upd.2 :: rest.2)

/-- Recognizer for the close-window action `glfwSetWindowShouldClose`. -/
def isCloseAction : Effect → Bool
  | Effect.setWindowShouldClose _ => true
  | _ => false

/-- A concrete running-state instance used for counterexamples and
witnesses. -/
def st0 : UIState :=
  { window_size := (400, 400), content_scale := 1, gui_user_scale := 1,
    gui_scale := 1, ui_config := "", shouldClose := false }

/-- A concrete environment used for witnesses. -/
def env0 : Env :=
  { content_scale := 1, framebuffer_scale := 1, clipboard := some "",
    user_clipboard := "", platform := "Linux", window_position := (30, 30),
    session_window_size := (400, 400) }

/-- Formalization of claim C1 on an effect trace: the clear-settings
notification comes first, then the delayed service-start notification, and
only after both the (unique) close-window action. -/
def claimC1 (l : List Effect) : Prop :=
  Effect.notify notifClearSettings ∈ l ∧
  Effect.notify notifServiceStart ∈ l ∧
  l.indexOf (Effect.notify notifClearSettings) <
    l.indexOf (Effect.notify notifServiceStart) ∧
  l.indexOf (Effect.notify notifServiceStart) < l.findIdx isCloseAction ∧
  l.countP isCloseAction = 1

lemma update_ui_state (st : UIState) (env : Env) : (update_ui st env).1 = st := by
  unfold update_ui
  split <;> rfl

lemma pythonInt_intCast (k : ℤ) : pythonInt (k : ℚ) = k := by
  unfold pythonInt
  split <;> simp

/-- C1 counterexample: on the trace of `reset_restart`, the close-window
action does NOT come after the two notifications — the code marks the
window as closing before emitting either notification. -/
theorem reset_restart_claim_counterexample : ¬ claimC1 (reset_restart st0).2 := by
  unfold claimC1
  decide

/-- C1 (amended): `reset_restart` logs a warning, marks the window as
closing first, then emits the `clear_settings_process.should_start`
notification followed by the `service_process.should_start` notification
carrying delay 2.0, in that order; over the whole operation exactly one
close-window action is performed, and the state records the pending
close. -/
theorem reset_restart_close_first_then_notifications (st : UIState) :
    (reset_restart st).2 =
      [Effect.log "Resetting all settings and restarting Capture.",
       Effect.setWindowShouldClose true,
       Effect.notify notifClearSettings,
       Effect.notify notifServiceStart] ∧
    notifClearSettings.subject = "clear_settings_process.should_start" ∧
    notifServiceStart.subject = "service_process.should_start" ∧
    notifServiceStart.delay = some 2 ∧
    (reset_restart st).2.countP isCloseAction = 1 ∧
    (reset_restart st).1.shouldClose = true :=
  ⟨rfl, rfl, rfl, rfl, rfl, rfl⟩

/-- C2: calling `set_scale` with the value already stored in
`gui_user_scale` leaves the state unchanged and fires no side effects. -/
theorem set_scale_noop_when_unchanged (st : UIState) (env : Env) (s : ℚ)
    (h : st.gui_user_scale = s) :
    set_scale st env s = (st, []) := by
  subst h
  simp [set_scale]

/-- C2 witness: `set_scale` at the already-current scale 1 on a concrete
state is a no-op. -/
theorem set_scale_noop_when_unchanged_witness : set_scale st0 env0 1 = (st0, []) :=
  set_scale_noop_when_unchanged st0 env0 1 rfl

/-- C3: once the window-should-close flag is set, every subsequent
`update_ui` call emits exactly the `service_process.should_stop`
notification, performs no drawing (no texture draw, no buffer swap), the
behaviour repeats identically across any sequence of calls, and the state
never transitions back to running. -/
theorem update_ui_after_close_emits_stop_only (st : UIState) (envs : List Env)
    (h : st.shouldClose = true) :
    (update_ui_iter st envs).1 = st ∧
    ∀ effs ∈ (update_ui_iter st envs).2,
      effs = [Effect.notify notifServiceStop] ∧
      Effect.swapBuffers ∉ effs ∧ Effect.drawTexture ∉ effs := by
  induction envs with
  | nil => exact ⟨rfl, by simp [update_ui_iter]⟩
  | cons e es ih =>
    have hupd : update_ui st e = (st, [Effect.notify notifServiceStop]) := by
      simp [update_ui, h]
    constructor
    · show (update_ui_iter st (e :: es)).1 = st
      simp only [update_ui_iter, hupd]
      exact ih.1
    · intro effs hm
      simp only [update_ui_iter, hupd, List.mem_cons] at hm
      rcases hm with rfl | hm
      · exact ⟨rfl, by decide, by decide⟩
      · exact ih.2 effs hm

/-- C3 witness: two consecutive `update_ui` calls on a concrete
close-pending state each emit only the stop notification. -/
theorem update_ui_after_close_emits_stop_only_witness :
    (update_ui_iter { st0 with shouldClose := true } [env0, env0]).1 =
      { st0 with shouldClose := true } ∧
    ∀ effs ∈ (update_ui_iter { st0 with shouldClose := true } [env0, env0]).2,
      effs = [Effect.notify notifServiceStop] ∧
      Effect.swapBuffers ∉ effs ∧ Effect.drawTexture ∉ effs :=
  update_ui_after_close_emits_stop_only { st0 with shouldClose := true }
    [env0, env0] rfl

/-- C4: for content scale c > 0 and framebuffer scale f > 0,
`set_window_size` resizes the window to exactly
`(400 * c / f, 400 * c / f)` converted to integers (Python `int`, which for
these positive values is the floor), starting from the fixed baseline
`window_size_default = (400, 400)`. -/
theorem set_window_size_scales_default (env : Env)
    (hc : 0 < env.content_scale) (hf : 0 < env.framebuffer_scale) :
    set_window_size env =
      [Effect.setWindowSize ⌊400 * env.content_scale / env.framebuffer_scale⌋
        ⌊400 * env.content_scale / env.framebuffer_scale⌋] ∧
    window_size_default = (400, 400) := by
  have hpos : (0 : ℚ) ≤ 400 * (env.content_scale / env.framebuffer_scale) := by
    positivity
  constructor
  · simp only [set_window_size, window_size_default, pythonInt]
    rw [if_neg (not_lt.mpr hpos), ← mul_div_assoc]
  · rfl

/-- C4 witness: with both scales 1 the window is resized to 400 × 400. -/
theorem set_window_size_scales_default_witness :
    set_window_size env0 =
      [Effect.setWindowSize ⌊400 * env0.content_scale / env0.framebuffer_scale⌋
        ⌊400 * env0.content_scale / env0.framebuffer_scale⌋] ∧
    window_size_default = (400, 400) :=
  set_window_size_scales_default env0 (by decide) (by decide)

/-- C5: for a user scale in the selector set and a positive content scale,
`on_resize` stores `(w, h)` as the window size, refreshes the cached
content scale, sets the widget-system effective scale to exactly
`gui_user_scale * content_scale`, and its trace propagates the new size to
the widget system and then runs one immediate `update_ui` render pass
within the same call. -/
theorem on_resize_scale_and_repaint (st : UIState) (env : Env) (w h : ℤ)
    (hu : st.gui_user_scale ∈ ([3/5, 4/5, 1, 6/5, 7/5] : List ℚ))
    (hc : 0 < env.content_scale) :
    (on_resize st env w h).1.window_size = (w, h) ∧
    (on_resize st env w h).1.content_scale = env.content_scale ∧
    (on_resize st env w h).1.gui_scale = st.gui_user_scale * env.content_scale ∧
    (on_resize st env w h).2 =
      [Effect.guiUpdateWindow w h, Effect.guiCollectMenus]
        ++ (update_ui (on_resize st env w h).1 env).2 := by
  have h1 : (on_resize st env w h).1 =
      { st with
          window_size := (w, h)
          content_scale := env.content_scale
          gui_scale := st.gui_user_scale * env.content_scale } := by
    simp [on_resize, update_ui_state]
  refine ⟨by rw [h1], by rw [h1], by rw [h1], ?_⟩
  rw [h1]
  rfl

/-- C5 witness: a concrete resize to 200 × 100 with user scale 1 and
content scale 1. -/
theorem on_resize_scale_and_repaint_witness :
    (on_resize st0 env0 200 100).1.window_size = (200, 100) ∧
    (on_resize st0 env0 200 100).1.content_scale = env0.content_scale ∧
    (on_resize st0 env0 200 100).1.gui_scale =
      st0.gui_user_scale * env0.content_scale ∧
    (on_resize st0 env0 200 100).2 =
      [Effect.guiUpdateWindow 200 100, Effect.guiCollectMenus]
        ++ (update_ui (on_resize st0 env0 200 100).1 env0).2 :=
  on_resize_scale_and_repaint st0 env0 200 100 (by norm_num [st0]) (by decide)

/-- C6: `start_stop_eye N true` emits exactly one
`eye_process.should_start.N` notification carrying `eye_id = N` and no
delay; `start_stop_eye N false` emits exactly one
`eye_process.should_stop.N` notification carrying `eye_id = N` and delay
0.2; toggling eye 0 on then off emits the start notification before the
stop notification as two separate notifications. -/
theorem start_stop_eye_notifications (N : Nat) :
    start_stop_eye N true =
      [Effect.notify
        { subject := "eye_process.should_start." ++ toString N,
          eye_id := some N, delay := none, initial_delay := none }] ∧
    start_stop_eye N false =
      [Effect.notify
        { subject := "eye_process.should_stop." ++ toString N,
          eye_id := some N, delay := some (1/5), initial_delay := none }] ∧
    toggle_eye_on_off 0 =
      [Effect.notify
        { subject := "eye_process.should_start.0", eye_id := some 0,
          delay := none, initial_delay := none },
       Effect.notify
        { subject := "eye_process.should_stop.0", eye_id := some 0,
          delay := some (1/5), initial_delay := none }] :=
  ⟨rfl, rfl, rfl⟩

/-- C7: a notification with subject `service_process.ui.should_update`
carrying an `initial_delay` makes `on_notify` re-emit the same notification
with its delay reset to the initial delay and then perform exactly one
render pass (`update_ui`); any other subject causes no action. -/
theorem on_notify_reemit_and_render (st : UIState) (env : Env) (n : Notification) :
    (∀ d, n.initial_delay = some d →
      n.subject = "service_process.ui.should_update" →
      on_notify st env n =
        some (Effect.notify { n with delay := some d } :: (update_ui st env).2)) ∧
    (n.subject ≠ "service_process.ui.should_update" →
      on_notify st env n = some []) := by
  constructor
  · intro d hd hs
    simp [on_notify, hs, hd]
  · intro hs
    simp [on_notify, hs]

/-- C7 witness: a concrete heartbeat notification with initial delay 1 is
re-emitted with delay 1 followed by the render pass, and a notification
with another subject does nothing. -/
theorem on_notify_reemit_and_render_witness :
    on_notify st0 env0
      { subject := "service_process.ui.should_update", initial_delay := some 1 } =
      some (Effect.notify
        { subject := "service_process.ui.should_update", delay := some 1,
          initial_delay := some 1 } :: (update_ui st0 env0).2) ∧
    on_notify st0 env0 { subject := "x" } = some [] :=
  ⟨(on_notify_reemit_and_render st0 env0
      { subject := "service_process.ui.should_update", initial_delay := some 1 }).1
      1 rfl rfl,
   (on_notify_reemit_and_render st0 env0 { subject := "x" }).2 (by decide)⟩

/-- C8: a clipboard retrieval that returns `None` is handled inside
`update_ui` exactly as if the clipboard held the empty string — the widget
system receives `""` and the failure never escapes (`update_ui` is a total
function). -/
theorem update_ui_clipboard_none_as_empty (st : UIState) (env : Env) :
    update_ui st { env with clipboard := none } =
      update_ui st { env with clipboard := some "" } ∧
    (st.shouldClose = false →
      Effect.guiUpdateClipboard "" ∈ (update_ui st { env with clipboard := none }).2) := by
  refine ⟨rfl, ?_⟩
  intro h
  simp [update_ui, gl_display, h]

/-- C8 witness: on a concrete running state an absent clipboard is treated
as the empty string. -/
theorem update_ui_clipboard_none_as_empty_witness :
    update_ui st0 { env0 with clipboard := none } =
      update_ui st0 { env0 with clipboard := some "" } ∧
    Effect.guiUpdateClipboard "" ∈ (update_ui st0 { env0 with clipboard := none }).2 :=
  ⟨(update_ui_clipboard_none_as_empty st0 env0).1,
   (update_ui_clipboard_none_as_empty st0 env0).2 rfl⟩

/-- C9: the snapshot returned by `get_init_dict` always carries the window
position, the current `gui_user_scale` and the opaque ui configuration
unchanged, and carries a window size exactly when neither queried window
dimension is zero. -/
theorem get_init_dict_contents (st : UIState) (env : Env) :
    (get_init_dict st env).window_position = env.window_position ∧
    (get_init_dict st env).gui_scale = st.gui_user_scale ∧
    (get_init_dict st env).ui_config = st.ui_config ∧
    ((get_init_dict st env).window_size.isSome ↔
      env.session_window_size.1 ≠ 0 ∧ env.session_window_size.2 ≠ 0) := by
  refine ⟨rfl, rfl, rfl, ?_⟩
  by_cases h1 : env.session_window_size.1 = 0 <;>
    by_cases h2 : env.session_window_size.2 = 0 <;>
      simp [get_init_dict, h1, h2]

/-- C10: when a non-zero window size is persisted, on Windows and Linux
each dimension is divided by the content scale and then truncated toward
zero, while on any other platform the raw integer dimensions are stored
unchanged (truncation of an integer is the identity). -/
theorem get_init_dict_window_size_platform (st : UIState) (env : Env)
    (hw : env.session_window_size.1 ≠ 0) (hh : env.session_window_size.2 ≠ 0) :
    ((env.platform = "Windows" ∨ env.platform = "Linux") →
      (get_init_dict st env).window_size =
        some (pythonInt ((env.session_window_size.1 : ℚ) / env.content_scale),
              pythonInt ((env.session_window_size.2 : ℚ) / env.content_scale))) ∧
    (¬(env.platform = "Windows" ∨ env.platform = "Linux") →
      (get_init_dict st env).window_size =
        some (env.session_window_size.1, env.session_window_size.2)) := by
  constructor
  · intro hp
    simp [get_init_dict, hw, hh, hp]
  · intro hp
    simp [get_init_dict, hw, hh, hp, pythonInt_intCast]

/-- C10 witness: on Linux with content scale 1 a 400 × 400 window is stored
as (400, 400) after division by the content scale. -/
theorem get_init_dict_window_size_platform_witness :
    (get_init_dict st0 env0).window_size =
      some (pythonInt ((env0.session_window_size.1 : ℚ) / env0.content_scale),
            pythonInt ((env0.session_window_size.2 : ℚ) / env0.content_scale)) :=
  (get_init_dict_window_size_platform st0 env0 (by decide) (by decide)).1
    (Or.inr rfl)
